import Mathlib

/-!
Shallow embedding of `AndroMoney2PTA.py`: a single-pass converter from an
AndroMoney CSV export to a plain-text ledger.  The classifier
(`AndroMoneyReader.__next__`) and the formatter (`LedgerWriter`,
`generateLedger`) are translated into executable Lean definitions below;
theorems about the claims follow the definitions.
-/

namespace AndroMoney2PTA

/-- A parsed `datetime.datetime` value (to minute precision, which is all the
program ever constructs: `strptime` with format `%Y%m%d%H%M`). -/
structure DateTime where
  year : Nat
  month : Nat
  day : Nat
  hour : Nat
  minute : Nat
deriving DecidableEq, Repr

/-- One raw CSV row, fields in column order 0..14 exactly as indexed by
`AndroMoneyReader.__next__` (`row[0]` .. `row[14]`). -/
structure RawRow where
  id : String            -- row[0]
  currency : String      -- row[1]
  amount : String        -- row[2]
  category : String      -- row[3]
  sub_category : String  -- row[4]
  date : String          -- row[5]
  from_account : String  -- row[6]
  to_account : String    -- row[7]
  remark : String        -- row[8]
  periodic : String      -- row[9]
  project : String       -- row[10]
  payee : String         -- row[11]
  uid : String           -- row[12]
  time : String          -- row[13]
  status : String        -- row[14]
deriving DecidableEq, Repr

/-- The `result` dict built at the top of `__next__`, after the positional
fields have been parsed (keys in construction order). -/
structure Record where
  id : Int
  currency : String
  amount : String
  category : String
  sub_category : String
  from_account : String
  to_account : String
  remark : String
  periodic : String
  project : String
  payee : String
  uid : String
  time : DateTime
  status : Option Int
deriving DecidableEq, Repr

/-- The value yielded by `__next__`: the `result` dict after
`del result['sub_category']`. -/
structure Transaction where
  id : Int
  currency : String
  amount : String
  category : String
  from_account : String
  to_account : String
  remark : String
  periodic : String
  project : String
  payee : String
  uid : String
  time : DateTime
  status : Option Int
deriving DecidableEq, Repr

/-- Drop the consumed `sub_category` key (`del result['sub_category']`). -/
def Record.toTransaction (r : Record) : Transaction :=
  { id := r.id, currency := r.currency, amount := r.amount,
    category := r.category, from_account := r.from_account,
    to_account := r.to_account, remark := r.remark, periodic := r.periodic,
    project := r.project, payee := r.payee, uid := r.uid, time := r.time,
    status := r.status }

/-! ### Primitive string/number helpers (models of the Python builtins used) -/

/-- Value of a nonempty digit string (most significant digit first). -/
def digitsToNat (cs : List Char) : Nat :=
  cs.foldl (fun n c => n * 10 + (c.toNat - 48)) 0

/-- Returns `some n` iff `cs` is a nonempty list of decimal digits. -/
def digitsVal (cs : List Char) : Option Nat :=
  if cs ≠ [] ∧ cs.all Char.isDigit then some (digitsToNat cs) else none

/-- Model of Python `int()` on a string: optional sign followed by digits;
anything else raises `ValueError` (modelled as `none`). -/
def parseInt (s : String) : Option Int :=
  match s.data with
  | '-' :: rest => (digitsVal rest).map (fun n => -(n : Int))
  | '+' :: rest => (digitsVal rest).map (fun n => (n : Int))
  | ds => (digitsVal ds).map (fun n => (n : Int))

/-- Model of Python `float()` on a plain decimal literal: the exact value is
returned as a pair `(m, e)` denoting `m / 10^e` (sign included in `m`).
Binary floating-point rounding is not modelled; on the decimal strings this
program compares against `1e-6` the exact value decides the comparison. -/
def parseDecimal (s : String) : Option (Int × Nat) :=
  let signed : Int × List Char :=
    match s.data with
    | '-' :: rest => (-1, rest)
    | '+' :: rest => (1, rest)
    | ds => (1, ds)
  let intPart := signed.2.takeWhile (fun c => c ≠ '.')
  let rest := signed.2.dropWhile (fun c => c ≠ '.')
  match rest with
  | [] =>
    (digitsVal intPart).map (fun n => (signed.1 * (n : Int), 0))
  | _ :: frac =>
    if intPart.all Char.isDigit ∧ frac.all Char.isDigit ∧
        (intPart ≠ [] ∨ frac ≠ []) then
      some (signed.1 * (digitsToNat (intPart ++ frac) : Int), frac.length)
    else none

/-- The test `float(amount) <= 1e-6` on the exact decimal value `m / 10^e`. -/
def leMicro (m : Int) (e : Nat) : Bool :=
  m * 10 ^ 6 ≤ (10 : Int) ^ e

/-- Python `str.zfill` on an unsigned string: left-pad with `'0'` to width. -/
def zfillList (w : Nat) (cs : List Char) : List Char :=
  List.replicate (w - cs.length) '0' ++ cs

/-- Model of `datetime.strptime(f'{date}{time.zfill(4)}', '%Y%m%d%H%M')`:
the concatenation must be exactly 12 digits (4-digit year) with the
calendar fields in range; otherwise `ValueError` (modelled as `none`). -/
def parseDateTime (dateStr timeStr : String) : Option DateTime :=
  let ds := dateStr.data ++ zfillList 4 timeStr.data
  if ds.length = 12 ∧ ds.all Char.isDigit then
    let y := digitsToNat (ds.take 4)
    let mo := digitsToNat ((ds.drop 4).take 2)
    let d := digitsToNat ((ds.drop 6).take 2)
    let h := digitsToNat ((ds.drop 8).take 2)
    let mi := digitsToNat ((ds.drop 10).take 2)
    if 1 ≤ mo ∧ mo ≤ 12 ∧ 1 ≤ d ∧ d ≤ 31 ∧ h ≤ 23 ∧ mi ≤ 59 then
      some ⟨y, mo, d, h, mi⟩
    else none
  else none

/-- Parse one raw row into the `result` dict, exactly the field conversions
at the top of `__next__`; any conversion failure is a `ValueError`
(`ParseError` in the design taxonomy), modelled as `none`. -/
def parseRow (row : RawRow) : Option Record := do
  let id ← parseInt row.id
  let time ← parseDateTime row.date row.time
  let status ←
    if row.status = "" then some none else (parseInt row.status).map some
  some { id := id, currency := row.currency, amount := row.amount,
         category := row.category, sub_category := row.sub_category,
         from_account := row.from_account, to_account := row.to_account,
         remark := row.remark, periodic := row.periodic,
         project := row.project, payee := row.payee, uid := row.uid,
         time := time, status := status }

/-- Error taxonomy of the program, one constructor per Python exception that
the translated code can raise. -/
inductive Err
  /-- Python `ValueError` from `int()` / `float()` / `strptime` (ParseError). -/
  | parseError
  /-- Python `AssertionError`; the f-string message interpolates the whole offending
  `result` dict, so the record is carried here (DataIntegrityError). -/
  | dataIntegrity (r : Record)
  /-- Python `KeyError` from a dict lookup in `generateLedger`. -/
  | keyError
  /-- Python `AttributeError`: `LedgerWriter.write` dereferences `self.file`, an
  attribute that is never assigned (the class only has `self.writer`). -/
  | attributeError
  /-- Python `NotImplementedError` (UnsupportedFeatureError in the taxonomy). -/
  | notImplemented
deriving DecidableEq, Repr

/-- The per-record body of `AndroMoneyReader.__next__` after parsing: the
status assertion, the archetype dispatch on `category`, and the
`curr_date` update.  Returns the (optional) yielded transaction and the
new `curr_date`; `none` as first component is the zero-amount
opening-balance skip (the caller then recurses onto the next row). -/
def classify (curr_date : DateTime) (r : Record) :
    Except Err (Option Transaction × DateTime) :=
  if ¬ (r.status = none ∨ r.status = some 0 ∨ r.status = some 1) then
    .error (.dataIntegrity r)
  else if r.category = "SYSTEM" then
    if ¬ r.sub_category = "INIT_AMOUNT" then .error (.dataIntegrity r)
    else
      match parseDecimal r.amount with
      | none => .error .parseError
      | some (m, e) =>
        if leMicro m e then .ok (none, curr_date)
        else
          .ok (some { r.toTransaction with
                      payee := r.sub_category,
                      time := curr_date,
                      from_account := "Opening Balances" }, curr_date)
  else
    let curr' := r.time
    if r.category = "Transfer" then
      .ok (some { r.toTransaction with payee := r.sub_category }, curr')
    else if r.category = "Income" then
      .ok (some { r.toTransaction with from_account := r.sub_category }, curr')
    else
      .ok (some { r.toTransaction with
                  to_account := r.category ++ ":" ++ r.sub_category,
                  category := "Expense"
                }, curr')

/-- Model of `AndroMoneyReader.__next__` over the remaining rows: parse the next row,
classify it, and on a zero-amount opening-balance skip recurse onto the
rest of the (finite) stream.  `ok none` is `StopIteration` (stream end);
a successful yield also returns the new `curr_date` and the unconsumed
rows. -/
def nextRecord (curr_date : DateTime) :
    List RawRow → Except Err (Option (Transaction × DateTime × List RawRow))
  | [] => .ok none
  | row :: rest =>
    match parseRow row with
    | none => .error .parseError
    | some r =>
      match classify curr_date r with
      | .error e => .error e
      | .ok (none, c) => nextRecord c rest
      | .ok (some t, c) => .ok (some (t, c, rest))

/-! ### LedgerWriter (the formatter) -/

/-- One entry of `changed_account`: a dict with an `account` key, an optional
`amount` key (number string, currency string), and an optional
`effective_dates` key (the mere presence of the key matters). -/
structure AccountLeg where
  account : String
  amount : Option (String × String)
  effective_dates : Option (List DateTime)
deriving DecidableEq, Repr

/-- Python `' '.join(s.split())`-style helpers, written with structural
recursion on the character list so that they evaluate in the kernel:
`pySplit` is `str.split()` (split on whitespace runs, dropping empties). -/
def pySplitAux : List Char → List Char → List String
  | [], acc => if acc = [] then [] else [String.mk acc.reverse]
  | c :: cs, acc =>
    if c.isWhitespace then
      if acc = [] then pySplitAux cs []
      else String.mk acc.reverse :: pySplitAux cs []
    else pySplitAux cs (c :: acc)

/-- Python `str.split()` with no argument: whitespace runs, empties dropped. -/
def pySplit (s : String) : List String :=
  pySplitAux s.data []

/-- Python `sep.join(parts)`. -/
def joinSep (sep : String) : List String → String
  | [] => ""
  | [x] => x
  | x :: xs => x ++ sep ++ joinSep sep xs

/-- Helper for `s.split('\n')`: split at every newline, keeping empty pieces. -/
def splitNLAux : List Char → List Char → List String
  | [], acc => [String.mk acc.reverse]
  | c :: cs, acc =>
    if c = '\n' then String.mk acc.reverse :: splitNLAux cs []
    else splitNLAux cs (c :: acc)

/-- Python `s.split('\n')` on a string. -/
def splitNL (s : String) : List String :=
  splitNLAux s.data []

/-- Decimal digits of a natural number (kernel-reducible, fuel-based). -/
def digitChar : Nat → Char
  | 0 => '0' | 1 => '1' | 2 => '2' | 3 => '3' | 4 => '4'
  | 5 => '5' | 6 => '6' | 7 => '7' | 8 => '8' | _ => '9'

/-- Digits of `n`, accumulated most-significant first; `fuel ≥ 1` suffices
for `n < 10^fuel`. -/
def natDigitsAux : Nat → Nat → List Char → List Char
  | 0, _, acc => acc
  | fuel + 1, n, acc =>
    if n < 10 then digitChar n :: acc
    else natDigitsAux fuel (n / 10) (digitChar (n % 10) :: acc)

/-- Render `n` in decimal, zero-padded on the left to `w` digits (the
`%Y`/`%m`/`%d`/`%H`/`%M` strftime directives). -/
def natPad (w n : Nat) : String :=
  String.mk (zfillList w (natDigitsAux (n + 1) n []))

/-- Python `str()` of an int (used on the validated status code). -/
def intStr (m : Int) : String :=
  if m < 0 then "-" ++ String.mk (natDigitsAux (m.natAbs + 1) m.natAbs [])
  else String.mk (natDigitsAux (m.natAbs + 1) m.natAbs [])

/-- Model of `datetime.strftime('%Y-%m-%d')`. -/
def strftimeYMD (d : DateTime) : String :=
  natPad 4 d.year ++ "-" ++ natPad 2 d.month ++ "-" ++ natPad 2 d.day

/-- Model of `datetime.strftime('%H%M')`. -/
def strftimeHM (d : DateTime) : String :=
  natPad 2 d.hour ++ natPad 2 d.minute

/-- The indent prefix `' ' * self.indent`. -/
def indentStr (indent : Nat) : String :=
  String.mk (List.replicate indent ' ')

/-- Model of `LedgerWriter.write_tag`: one indented `; :tag: value` line, whitespace
in the tag replaced by underscores, newlines in the value by spaces. -/
def write_tag (indent : Nat) (tag value : String) : String :=
  indentStr indent ++ "; :" ++ joinSep "_" (pySplit tag) ++ ": " ++
    joinSep " " (splitNL value) ++ "\n"

/-- Model of `LedgerWriter.write_single_account`: one indented leg line, account
whitespace collapsed, amount (if any) joined by two spaces; a requested
`effective_date` raises `NotImplementedError`. -/
def write_single_account (indent : Nat) (account : String)
    (amount : Option (String × String)) (effective_date : Option DateTime) :
    Except Err String :=
  let line := indentStr indent ++ joinSep " " (pySplit account) ++
    (match amount with
     | some (n, c) => "  " ++ n ++ " " ++ c
     | none => "")
  match effective_date with
  | some _ => .error .notImplemented
  | none => .ok (line ++ "\n")

/-- The `for account in changed_account` loop of `LedgerWriter.write`: a leg
carrying an `effective_dates` key raises `NotImplementedError` before the
leg is written; otherwise the leg is written with no effective date. -/
def writeAccounts (indent : Nat) : List AccountLeg → Except Err String
  | [] => .ok ""
  | leg :: rest =>
    if leg.effective_dates.isSome then .error .notImplemented
    else
      match write_single_account indent leg.account leg.amount none with
      | .error e => .error e
      | .ok line => (writeAccounts indent rest).map (fun s => line ++ s)

/-- Model of `LedgerWriter.write`: title line, account legs, tag lines, blank-line
separator.  A non-`None` `effective_date` dereferences `self.file`, an
attribute the class never assigns, so it raises `AttributeError` before
anything further happens. -/
def write (indent : Nat) (transaction_date : DateTime) (payee : String)
    (effective_date : Option DateTime) (changed_account : List AccountLeg)
    (tags : List (String × String)) : Except Err String :=
  match effective_date with
  | some _ => .error .attributeError
  | none =>
    let title := strftimeYMD transaction_date ++ " * " ++ payee ++ "\n"
    (writeAccounts indent changed_account).map (fun accs =>
      title ++ accs ++
        joinSep "" (tags.map (fun p => write_tag indent p.1 p.2)) ++ "\n")

/-! ### generateLedger -/

/-- Model of `AndroMoneyReader.FROM_ACCOUNT_TYPE` (a dict; a missing key would raise
`KeyError`, modelled by `none`). -/
def FROM_ACCOUNT_TYPE (category : String) : Option String :=
  if category = "SYSTEM" then some "Equity"
  else if category = "Transfer" then some "Asset"
  else if category = "Income" then some "Income"
  else if category = "Expense" then some "Asset"
  else none

/-- Model of `AndroMoneyReader.TO_ACCOUNT_TYPE`. -/
def TO_ACCOUNT_TYPE (category : String) : Option String :=
  if category = "SYSTEM" then some "Asset"
  else if category = "Transfer" then some "Asset"
  else if category = "Income" then some "Asset"
  else if category = "Expense" then some "Expenses"
  else none

/-- The loop body of `generateLedger`: build the two legs (namespaced by the
two account-type dicts) and the tag dict (insertion order: uid, time,
then status / project / remark when present), and write the block. -/
def ledgerEntry (t : Transaction) : Except Err String :=
  match TO_ACCOUNT_TYPE t.category, FROM_ACCOUNT_TYPE t.category with
  | some toType, some fromType =>
    let changed_account : List AccountLeg :=
      [{ account := toType ++ ":" ++ t.to_account,
         amount := some (t.amount, t.currency), effective_dates := none },
       { account := fromType ++ ":" ++ t.from_account,
         amount := none, effective_dates := none }]
    let tags : List (String × String) :=
      [("AndroMoney_uid", t.uid), ("AndroMoney_time", strftimeHM t.time)] ++
      (match t.status with
       | some s => [("AndroMoney_status", intStr s)]
       | none => []) ++
      (if t.project = "" then [] else [("AndroMoney_project", t.project)]) ++
      (if t.remark = "" then [] else [("AndroMoney_remark", t.remark)])
    write 4 t.time t.payee none changed_account tags
  | _, _ => .error .keyError

/-- The whole pipeline on a finite stream of raw rows: the `generateLedger`
loop driving `AndroMoneyReader` (its `__next__` fused in, so the
zero-amount opening-balance skip is the `ok (none, c)` case), concatenating
the formatted blocks. -/
def runPipeline (curr_date : DateTime) :
    List RawRow → Except Err String
  | [] => .ok ""
  | row :: rest =>
    match parseRow row with
    | none => .error .parseError
    | some r =>
      match classify curr_date r with
      | .error e => .error e
      | .ok (none, c) => runPipeline c rest
      | .ok (some t, c) =>
        match ledgerEntry t with
        | .error e => .error e
        | .ok entry => (runPipeline c rest).map (fun s => entry ++ s)

/-- Equality of `Except` values is decidable when it is on both sides. -/
def exceptDecEq {ε α : Type} [DecidableEq ε] [DecidableEq α] :
    (a b : Except ε α) → Decidable (a = b)
  | .error x, .error y =>
    if h : x = y then isTrue (congrArg Except.error h)
    else isFalse (fun hc => h (Except.error.inj hc))
  | .error _, .ok _ => isFalse (fun hc => Except.noConfusion hc)
  | .ok _, .error _ => isFalse (fun hc => Except.noConfusion hc)
  | .ok x, .ok y =>
    if h : x = y then isTrue (congrArg Except.ok h)
    else isFalse (fun hc => h (Except.ok.inj hc))

instance {ε α : Type} [DecidableEq ε] [DecidableEq α] :
    DecidableEq (Except ε α) :=
  exceptDecEq

/-! ### Case analysis of the classifier -/

/-- Exhaustive description of every transaction the classifier can emit:
the four archetype branches of `__next__`, with the exact field updates
each branch performs and the `curr_date` it returns. -/
theorem classify_emit_cases (curr : DateTime) (r : Record) (t : Transaction)
    (d : DateTime) (h : classify curr r = .ok (some t, d)) :
    (r.category = "SYSTEM" ∧ r.sub_category = "INIT_AMOUNT" ∧
      t = { r.toTransaction with
            payee := r.sub_category, time := curr,
            from_account := "Opening Balances" } ∧ d = curr) ∨
    (r.category = "Transfer" ∧
      t = { r.toTransaction with payee := r.sub_category } ∧ d = r.time) ∨
    (r.category = "Income" ∧
      t = { r.toTransaction with from_account := r.sub_category } ∧
      d = r.time) ∨
    (r.category ≠ "SYSTEM" ∧ r.category ≠ "Transfer" ∧ r.category ≠ "Income" ∧
      t = { r.toTransaction with
            to_account := r.category ++ ":" ++ r.sub_category,
            category := "Expense" } ∧ d = r.time) := by
  unfold classify at h
  split at h
  · exact Except.noConfusion h
  · split at h
    · rename_i hcat
      split at h
      · exact Except.noConfusion h
      · rename_i hsub
        split at h
        · exact Except.noConfusion h
        · split at h
          · simp at h
          · rename_i m e _ _
            obtain ⟨h1, h2⟩ := Prod.mk.injEq .. ▸ Except.ok.inj h
            cases h1
            exact Or.inl ⟨hcat, not_not.mp hsub, rfl, h2.symm⟩
    · rename_i hcat
      split at h
      · rename_i htr
        obtain ⟨h1, h2⟩ := Prod.mk.injEq .. ▸ Except.ok.inj h
        cases h1
        exact Or.inr (Or.inl ⟨htr, rfl, h2.symm⟩)
      · split at h
        · rename_i htr hinc
          obtain ⟨h1, h2⟩ := Prod.mk.injEq .. ▸ Except.ok.inj h
          cases h1
          exact Or.inr (Or.inr (Or.inl ⟨hinc, rfl, h2.symm⟩))
        · rename_i htr hinc
          obtain ⟨h1, h2⟩ := Prod.mk.injEq .. ▸ Except.ok.inj h
          cases h1
          exact Or.inr (Or.inr (Or.inr ⟨hcat, htr, hinc, rfl, h2.symm⟩))

/-- Only the zero-amount opening-balance skip can return `none`: it leaves
`curr_date` unchanged and happens only on a SYSTEM-category record. -/
theorem classify_skip_cases (curr : DateTime) (r : Record) (d : DateTime)
    (h : classify curr r = .ok (none, d)) :
    r.category = "SYSTEM" ∧ d = curr := by
  unfold classify at h
  split at h
  · exact Except.noConfusion h
  · split at h
    · rename_i hcat
      split at h
      · exact Except.noConfusion h
      · split at h
        · exact Except.noConfusion h
        · split at h
          · exact ⟨hcat, ((Prod.mk.injEq .. ▸ Except.ok.inj h).2).symm⟩
          · simp at h
    · split at h
      · simp at h
      · split at h <;> simp at h

/-- C1: an emitted opening-balance (SYSTEM-category) transaction carries the
classifier's running `curr_date` as its timestamp, not the timestamp
parsed from the row's own date and time fields. -/
theorem opening_balance_uses_running_date (curr : DateTime) (r : Record)
    (t : Transaction) (d : DateTime) (hcat : r.category = "SYSTEM")
    (h : classify curr r = .ok (some t, d)) : t.time = curr := by
  rcases classify_emit_cases curr r t d h with
    ⟨_, _, ht, _⟩ | ⟨hc, _, _⟩ | ⟨hc, _, _⟩ | ⟨hc, _, _, _, _⟩
  · rw [ht]
  · exact absurd (hcat.symm.trans hc) (by decide)
  · exact absurd (hcat.symm.trans hc) (by decide)
  · exact absurd hcat hc

/-- C1 witness: init date 2016-08-24, first row an opening balance whose own
date field parses to 2020-01-01: the emitted timestamp is 2016-08-24. -/
theorem opening_balance_uses_running_date_witness :
    ({ id := 1, currency := "USD", amount := "100", category := "SYSTEM",
       from_account := "Opening Balances", to_account := "Cash",
       remark := "", periodic := "", project := "", payee := "INIT_AMOUNT",
       uid := "u1", time := ⟨2016, 8, 24, 0, 0⟩,
       status := none } : Transaction).time = ⟨2016, 8, 24, 0, 0⟩ :=
  opening_balance_uses_running_date ⟨2016, 8, 24, 0, 0⟩
    { id := 1, currency := "USD", amount := "100", category := "SYSTEM",
      sub_category := "INIT_AMOUNT", from_account := "Bank",
      to_account := "Cash", remark := "", periodic := "", project := "",
      payee := "", uid := "u1", time := ⟨2020, 1, 1, 12, 30⟩, status := none }
    _ ⟨2016, 8, 24, 0, 0⟩ rfl (by decide)

/-- C2: a valid opening-balance record is skipped (no transaction, no error,
`curr_date` untouched) exactly when its parsed amount, the exact decimal
value `m / 10^e`, is at most `1e-6`; a skipped head row makes `__next__`
advance to the remaining rows. -/
theorem zero_amount_opening_balance_skip (curr : DateTime) (row : RawRow)
    (rest : List RawRow) (r : Record) (m : Int) (e : Nat)
    (hp : parseRow row = some r)
    (hstat : r.status = none ∨ r.status = some 0 ∨ r.status = some 1)
    (hcat : r.category = "SYSTEM") (hsub : r.sub_category = "INIT_AMOUNT")
    (hamt : parseDecimal r.amount = some (m, e)) :
    (classify curr r = .ok (none, curr) ↔ leMicro m e = true) ∧
    (leMicro m e = true →
      nextRecord curr (row :: rest) = nextRecord curr rest) := by
  have hiff : classify curr r = .ok (none, curr) ↔ leMicro m e = true := by
    unfold classify
    rw [if_neg (not_not_intro hstat), if_pos hcat,
      if_neg (not_not_intro hsub), hamt]
    by_cases hle : leMicro m e
    · simp [hle]
    · simp [hle]
  refine ⟨hiff, fun hle => ?_⟩
  simp only [nextRecord, hp, hiff.mpr hle]

/-- C2 witness: amount `"0.0000001"` is skipped, amount `"0.01"` is not. -/
theorem zero_amount_opening_balance_skip_witness :
    classify ⟨2016, 8, 24, 0, 0⟩
      { id := 1, currency := "USD", amount := "0.0000001",
        category := "SYSTEM", sub_category := "INIT_AMOUNT",
        from_account := "Bank", to_account := "Cash", remark := "",
        periodic := "", project := "", payee := "", uid := "u1",
        time := ⟨2020, 1, 1, 12, 30⟩, status := none } =
      .ok (none, ⟨2016, 8, 24, 0, 0⟩) ∧
    ¬ classify ⟨2016, 8, 24, 0, 0⟩
      { id := 1, currency := "USD", amount := "0.01", category := "SYSTEM",
        sub_category := "INIT_AMOUNT", from_account := "Bank",
        to_account := "Cash", remark := "", periodic := "", project := "",
        payee := "", uid := "u1", time := ⟨2020, 1, 1, 12, 30⟩,
        status := none } = .ok (none, ⟨2016, 8, 24, 0, 0⟩) :=
  ⟨(zero_amount_opening_balance_skip ⟨2016, 8, 24, 0, 0⟩
      { id := "1", currency := "USD", amount := "0.0000001",
        category := "SYSTEM", sub_category := "INIT_AMOUNT",
        date := "20200101", from_account := "Bank", to_account := "Cash",
        remark := "", periodic := "", project := "", payee := "",
        uid := "u1", time := "1230", status := "" } [] _ 1 7 (by decide)
      (by decide) rfl rfl (by decide)).1.mpr (by decide),
   fun h =>
    absurd ((zero_amount_opening_balance_skip ⟨2016, 8, 24, 0, 0⟩
      { id := "1", currency := "USD", amount := "0.01",
        category := "SYSTEM", sub_category := "INIT_AMOUNT",
        date := "20200101", from_account := "Bank", to_account := "Cash",
        remark := "", periodic := "", project := "", payee := "",
        uid := "u1", time := "1230", status := "" } [] _ 1 2 (by decide)
      (by decide) rfl rfl (by decide)).1.mp h) (by decide)⟩

/-- C3: any row whose category is none of SYSTEM, Transfer, Income is
emitted with category normalized to the fixed tag `"Expense"` and
`to_account` set to `"<category>:<sub_category>"`. -/
theorem expense_normalization (curr : DateTime) (r : Record) (t : Transaction)
    (d : DateTime) (h1 : r.category ≠ "SYSTEM") (h2 : r.category ≠ "Transfer")
    (h3 : r.category ≠ "Income") (h : classify curr r = .ok (some t, d)) :
    t.category = "Expense" ∧
    t.to_account = r.category ++ ":" ++ r.sub_category := by
  rcases classify_emit_cases curr r t d h with
    ⟨hc, _, _⟩ | ⟨hc, _, _⟩ | ⟨hc, _, _⟩ | ⟨_, _, _, ht, _⟩
  · exact absurd hc h1
  · exact absurd hc h2
  · exact absurd hc h3
  · exact ⟨by rw [ht], by rw [ht]⟩

/-- C3 witness: category `"Food"`, sub-category `"Lunch"` yields
`to_account = "Food:Lunch"` and category `"Expense"`. -/
theorem expense_normalization_witness :
    ({ id := 2, currency := "TWD", amount := "120", category := "Expense",
       from_account := "Cash", to_account := "Food:Lunch", remark := "",
       periodic := "", project := "", payee := "Bob", uid := "u2",
       time := ⟨2021, 3, 5, 12, 30⟩,
       status := some 1 } : Transaction).category = "Expense" ∧
    ({ id := 2, currency := "TWD", amount := "120", category := "Expense",
       from_account := "Cash", to_account := "Food:Lunch", remark := "",
       periodic := "", project := "", payee := "Bob", uid := "u2",
       time := ⟨2021, 3, 5, 12, 30⟩,
       status := some 1 } : Transaction).to_account =
      "Food" ++ ":" ++ "Lunch" :=
  expense_normalization ⟨2016, 8, 24, 0, 0⟩
    { id := 2, currency := "TWD", amount := "120", category := "Food",
      sub_category := "Lunch", from_account := "Cash", to_account := "old",
      remark := "", periodic := "", project := "", payee := "Bob",
      uid := "u2", time := ⟨2021, 3, 5, 12, 30⟩, status := some 1 }
    _ ⟨2021, 3, 5, 12, 30⟩ (by decide) (by decide) (by decide) (by decide)

/-- C4: every emitted transaction's category is one of the four table keys,
and the two account-type dicts used by `generateLedger` namespace its legs
per the fixed table: SYSTEM ↦ (Equity, Asset), Transfer ↦ (Asset, Asset),
Income ↦ (Income, Asset), Expense ↦ (Asset, Expenses). -/
theorem namespace_prefix_table (curr : DateTime) (r : Record)
    (t : Transaction) (d : DateTime) (h : classify curr r = .ok (some t, d)) :
    (t.category = "SYSTEM" ∧ FROM_ACCOUNT_TYPE t.category = some "Equity" ∧
      TO_ACCOUNT_TYPE t.category = some "Asset") ∨
    (t.category = "Transfer" ∧ FROM_ACCOUNT_TYPE t.category = some "Asset" ∧
      TO_ACCOUNT_TYPE t.category = some "Asset") ∨
    (t.category = "Income" ∧ FROM_ACCOUNT_TYPE t.category = some "Income" ∧
      TO_ACCOUNT_TYPE t.category = some "Asset") ∨
    (t.category = "Expense" ∧ FROM_ACCOUNT_TYPE t.category = some "Asset" ∧
      TO_ACCOUNT_TYPE t.category = some "Expenses") := by
  rcases classify_emit_cases curr r t d h with
    ⟨hc, _, ht, _⟩ | ⟨hc, ht, _⟩ | ⟨hc, ht, _⟩ | ⟨_, _, _, ht, _⟩
  · subst ht
    refine Or.inl ⟨?_, ?_, ?_⟩ <;>
      simp [Record.toTransaction, hc, FROM_ACCOUNT_TYPE, TO_ACCOUNT_TYPE]
  · subst ht
    refine Or.inr (Or.inl ⟨?_, ?_, ?_⟩) <;>
      simp [Record.toTransaction, hc, FROM_ACCOUNT_TYPE, TO_ACCOUNT_TYPE]
  · subst ht
    refine Or.inr (Or.inr (Or.inl ⟨?_, ?_, ?_⟩)) <;>
      simp [Record.toTransaction, hc, FROM_ACCOUNT_TYPE, TO_ACCOUNT_TYPE]
  · subst ht
    refine Or.inr (Or.inr (Or.inr ⟨?_, ?_, ?_⟩)) <;>
      simp [Record.toTransaction, FROM_ACCOUNT_TYPE, TO_ACCOUNT_TYPE]

/-- C4 witness: a Transfer row's emitted category namespaces both legs with
`"Asset"`. -/
theorem namespace_prefix_table_witness :
    FROM_ACCOUNT_TYPE "Transfer" = some "Asset" ∧
    TO_ACCOUNT_TYPE "Transfer" = some "Asset" := by
  rcases namespace_prefix_table ⟨2016, 8, 24, 0, 0⟩
    { id := 3, currency := "TWD", amount := "50", category := "Transfer",
      sub_category := "move", from_account := "Bank", to_account := "Cash",
      remark := "", periodic := "", project := "", payee := "",
      uid := "u3", time := ⟨2021, 4, 1, 8, 0⟩, status := none }
    { id := 3, currency := "TWD", amount := "50", category := "Transfer",
      from_account := "Bank", to_account := "Cash", remark := "",
      periodic := "", project := "", payee := "move", uid := "u3",
      time := ⟨2021, 4, 1, 8, 0⟩, status := none }
    ⟨2021, 4, 1, 8, 0⟩ (by decide) with h | h | h | h
  · exact absurd h.1 (by decide)
  · exact ⟨h.2.1, h.2.2⟩
  · exact absurd h.1 (by decide)
  · exact absurd h.1 (by decide)

/-- C5: processing a parsed row raises the record-carrying assertion failure
(DataIntegrityError) exactly when the status is present and not 0 or 1,
or the category is `"SYSTEM"` with a sub-category other than
`"INIT_AMOUNT"`; and any such failure carries this very record (the
offending record's content is interpolated into the message). -/
theorem dataIntegrity_error_iff (curr : DateTime) (r : Record) :
    (classify curr r = .error (.dataIntegrity r) ↔
      (¬ (r.status = none ∨ r.status = some 0 ∨ r.status = some 1) ∨
        (r.category = "SYSTEM" ∧ r.sub_category ≠ "INIT_AMOUNT"))) ∧
    (∀ rec, classify curr r = .error (.dataIntegrity rec) → rec = r) := by
  constructor
  · constructor
    · intro h
      unfold classify at h
      split at h
      · rename_i hbad
        exact Or.inl hbad
      · split at h
        · rename_i hcat
          split at h
          · rename_i hsub
            exact Or.inr ⟨hcat, hsub⟩
          · split at h
            · exact Err.noConfusion (Except.error.inj h)
            · split at h <;> exact Except.noConfusion h
        · split at h
          · exact Except.noConfusion h
          · split at h <;> exact Except.noConfusion h
    · intro hor
      by_cases hstat : r.status = none ∨ r.status = some 0 ∨ r.status = some 1
      · obtain hbad | ⟨hcat, hsub⟩ := hor
        · exact absurd hstat hbad
        · unfold classify
          rw [if_neg (not_not_intro hstat), if_pos hcat, if_pos hsub]
      · unfold classify
        rw [if_pos hstat]
  · intro rec h
    unfold classify at h
    split at h
    · exact (Err.dataIntegrity.inj (Except.error.inj h)).symm
    · split at h
      · split at h
        · exact (Err.dataIntegrity.inj (Except.error.inj h)).symm
        · split at h
          · exact Err.noConfusion (Except.error.inj h)
          · split at h <;> exact Except.noConfusion h
      · split at h
        · exact Except.noConfusion h
        · split at h <;> exact Except.noConfusion h

/-- C5 witness: raw status 2 (present, not 0 or 1) raises the assertion
failure carrying the offending record. -/
theorem dataIntegrity_error_iff_witness :
    classify ⟨2016, 8, 24, 0, 0⟩
      { id := 4, currency := "USD", amount := "10", category := "Food",
        sub_category := "Lunch", from_account := "Cash", to_account := "x",
        remark := "", periodic := "", project := "", payee := "Bob",
        uid := "u4", time := ⟨2021, 5, 1, 9, 0⟩, status := some 2 } =
      .error (.dataIntegrity
        { id := 4, currency := "USD", amount := "10", category := "Food",
          sub_category := "Lunch", from_account := "Cash", to_account := "x",
          remark := "", periodic := "", project := "", payee := "Bob",
          uid := "u4", time := ⟨2021, 5, 1, 9, 0⟩, status := some 2 }) :=
  (dataIntegrity_error_iff ⟨2016, 8, 24, 0, 0⟩
    { id := 4, currency := "USD", amount := "10", category := "Food",
      sub_category := "Lunch", from_account := "Cash", to_account := "x",
      remark := "", periodic := "", project := "", payee := "Bob",
      uid := "u4", time := ⟨2021, 5, 1, 9, 0⟩,
      status := some 2 }).1.mpr (by decide)

/-- C8: the only state threaded through a classification step is
`curr_date`: a successfully processed non-SYSTEM row sets it to that
row's parsed timestamp, and a SYSTEM (opening-balance) row — emitted or
skipped — returns it unchanged. -/
theorem curr_date_frame (curr : DateTime) (r : Record)
    (res : Option Transaction × DateTime) (h : classify curr r = .ok res) :
    (r.category = "SYSTEM" → res.2 = curr) ∧
    (r.category ≠ "SYSTEM" → res.2 = r.time) := by
  obtain ⟨o, d⟩ := res
  cases o with
  | none =>
    obtain ⟨hc, hd⟩ := classify_skip_cases curr r d h
    exact ⟨fun _ => hd, fun hn => absurd hc hn⟩
  | some t =>
    rcases classify_emit_cases curr r t d h with
      ⟨hc, _, _, hd⟩ | ⟨hc, _, hd⟩ | ⟨hc, _, hd⟩ | ⟨hc, _, _, _, hd⟩
    · exact ⟨fun _ => hd, fun hn => absurd hc hn⟩
    · exact ⟨fun hs => absurd (hs.symm.trans hc) (by decide), fun _ => hd⟩
    · exact ⟨fun hs => absurd (hs.symm.trans hc) (by decide), fun _ => hd⟩
    · exact ⟨fun hs => absurd hs hc, fun _ => hd⟩

/-- C8 witness: an Expense row processed from 2016-08-24 moves `curr_date`
to its own parsed timestamp 2021-03-05 12:30. -/
theorem curr_date_frame_witness :
    ((some { id := 2, currency := "TWD", amount := "120",
             category := "Expense", from_account := "Cash",
             to_account := "Food:Lunch", remark := "", periodic := "",
             project := "", payee := "Bob", uid := "u2",
             time := ⟨2021, 3, 5, 12, 30⟩, status := some 1 },
      (⟨2021, 3, 5, 12, 30⟩ : DateTime)) :
        Option Transaction × DateTime).2 = ⟨2021, 3, 5, 12, 30⟩ :=
  (curr_date_frame ⟨2016, 8, 24, 0, 0⟩
    { id := 2, currency := "TWD", amount := "120", category := "Food",
      sub_category := "Lunch", from_account := "Cash", to_account := "old",
      remark := "", periodic := "", project := "", payee := "Bob",
      uid := "u2", time := ⟨2021, 3, 5, 12, 30⟩, status := some 1 }
    _ (by decide)).2 (by decide)

/-- C10: each successful `__next__` strictly consumes at least one row of
the finite remaining stream — the zero-amount skip recursion consumes one
row per step, so the recursion is well-founded and the returned unread
suffix is strictly shorter. -/
theorem nextRecord_consumes (rows : List RawRow) :
    ∀ (curr d : DateTime) (t : Transaction) (rest : List RawRow),
      nextRecord curr rows = .ok (some (t, d, rest)) →
      rest.length < rows.length := by
  induction rows with
  | nil =>
    intro curr d t rest h
    exact absurd h (by simp [nextRecord])
  | cons row rs ih =>
    intro curr d t rest h
    unfold nextRecord at h
    split at h
    · exact Except.noConfusion h
    · split at h
      · exact Except.noConfusion h
      · exact Nat.lt_succ_of_lt (ih _ _ _ _ h)
      · have hrest : rest = rs := by
          injection h with h'
          injection h' with h''
          exact (congrArg (fun x => x.2.2) h'').symm
        rw [hrest]
        exact Nat.lt_succ_self _

/-- C10 witness: one Expense row is consumed whole, leaving an empty and
strictly shorter suffix. -/
theorem nextRecord_consumes_witness :
    ([] : List RawRow).length <
      [({ id := "2", currency := "TWD", amount := "120", category := "Food",
          sub_category := "Lunch", date := "20210305",
          from_account := "Cash", to_account := "old", remark := "",
          periodic := "", project := "", payee := "Bob", uid := "u2",
          time := "1230", status := "1" } : RawRow)].length :=
  nextRecord_consumes _ ⟨2016, 8, 24, 0, 0⟩ ⟨2021, 3, 5, 12, 30⟩
    { id := 2, currency := "TWD", amount := "120", category := "Expense",
      from_account := "Cash", to_account := "Food:Lunch", remark := "",
      periodic := "", project := "", payee := "Bob", uid := "u2",
      time := ⟨2021, 3, 5, 12, 30⟩, status := some 1 } [] (by decide)

/-- If any leg of `changed_account` carries an `effective_dates` key, the
account loop raises `NotImplementedError`. -/
theorem writeAccounts_effective_dates (indent : Nat) (leg : AccountLeg)
    (legs : List AccountLeg) (hmem : leg ∈ legs)
    (hsome : leg.effective_dates.isSome = true) :
    writeAccounts indent legs = .error .notImplemented := by
  induction legs with
  | nil => cases hmem
  | cons a rest ih =>
    rcases List.mem_cons.mp hmem with heq | hm
    · unfold writeAccounts
      rw [if_pos (heq ▸ hsome)]
    · by_cases ha : a.effective_dates.isSome = true
      · unfold writeAccounts
        rw [if_pos ha]
      · unfold writeAccounts
        rw [if_neg ha]
        obtain ⟨s, hs⟩ :
            ∃ s, write_single_account indent a.account a.amount none =
              .ok s := ⟨_, rfl⟩
        rw [hs, ih hm]
        rfl

/-- C6 counterexample: a transaction-level effective date makes `write`
dereference the never-assigned `self.file` attribute, so it raises
`AttributeError` — not the `NotImplementedError` that realizes
UnsupportedFeatureError. -/
theorem effective_date_not_unsupported_counterexample :
    write 4 ⟨2021, 3, 5, 0, 0⟩ "Bob" (some ⟨2021, 3, 6, 0, 0⟩)
      [{ account := "Expenses:Food", amount := some ("1", "USD"),
         effective_dates := none }] [] = .error .attributeError ∧
    write 4 ⟨2021, 3, 5, 0, 0⟩ "Bob" (some ⟨2021, 3, 6, 0, 0⟩)
      [{ account := "Expenses:Food", amount := some ("1", "USD"),
         effective_dates := none }] [] ≠ .error .notImplemented :=
  ⟨rfl, by decide⟩

/-- C6 amended: requesting an effective date is always fatal and never a
silent no-op, but the two request paths fail differently: a leg-level
`effective_dates` entry raises `NotImplementedError`
(UnsupportedFeatureError), while a transaction-level effective date
raises `AttributeError` because `write` references the undefined
`self.file`. -/
theorem effective_date_request_fatal (indent : Nat) (d : DateTime)
    (payee : String) (ed : DateTime) (legs : List AccountLeg)
    (tags : List (String × String)) (leg : AccountLeg) :
    write indent d payee (some ed) legs tags = .error .attributeError ∧
    (leg ∈ legs → leg.effective_dates.isSome = true →
      write indent d payee none legs tags = .error .notImplemented) := by
  constructor
  · rfl
  · intro hmem hsome
    unfold write
    rw [writeAccounts_effective_dates indent leg legs hmem hsome]
    rfl

/-- C6 amended witness: both failure modes at concrete inputs. -/
theorem effective_date_request_fatal_witness :
    write 4 ⟨2021, 3, 5, 0, 0⟩ "Bob" (some ⟨2021, 3, 6, 0, 0⟩) [] [] =
      .error .attributeError ∧
    write 4 ⟨2021, 3, 5, 0, 0⟩ "Bob" none
      [{ account := "Asset:X", amount := none, effective_dates := some [] }]
      [] = .error .notImplemented :=
  ⟨(effective_date_request_fatal 4 ⟨2021, 3, 5, 0, 0⟩ "Bob"
      ⟨2021, 3, 6, 0, 0⟩ [] []
      { account := "Asset:X", amount := none,
        effective_dates := some [] }).1,
   (effective_date_request_fatal 4 ⟨2021, 3, 5, 0, 0⟩ "Bob"
      ⟨2021, 3, 6, 0, 0⟩
      [{ account := "Asset:X", amount := none, effective_dates := some [] }]
      []
      { account := "Asset:X", amount := none,
        effective_dates := some [] }).2 (by decide) rfl⟩

/-- C7: the formatter renders the specified transaction as exactly the
expected block — checked both at the `write` call (legs and tags as the
claim lists them) and through the `generateLedger` entry builder that
produces those legs and tags from the Transaction. -/
theorem formatter_exact_block :
    write 4 ⟨2021, 3, 5, 12, 30⟩ "Bob" none
      [{ account := "Expenses:Food:Lunch", amount := some ("12.50", "USD"),
         effective_dates := none },
       { account := "Asset:Checking", amount := none,
         effective_dates := none }]
      [("AndroMoney_uid", "123"), ("AndroMoney_time", "1230")] =
      .ok "2021-03-05 * Bob\n    Expenses:Food:Lunch  12.50 USD\n    Asset:Checking\n    ; :AndroMoney_uid: 123\n    ; :AndroMoney_time: 1230\n\n" ∧
    ledgerEntry
      { id := 1, currency := "USD", amount := "12.50",
        category := "Expense", from_account := "Checking",
        to_account := "Food:Lunch", remark := "", periodic := "",
        project := "", payee := "Bob", uid := "123",
        time := ⟨2021, 3, 5, 12, 30⟩, status := none } =
      .ok "2021-03-05 * Bob\n    Expenses:Food:Lunch  12.50 USD\n    Asset:Checking\n    ; :AndroMoney_uid: 123\n    ; :AndroMoney_time: 1230\n\n" :=
  ⟨rfl, rfl⟩

/-- C9 counterexample: two input rows identical except in the raw payee
field (column 11) produce different ledger text — an Expense-archetype
row's raw payee is kept and rendered in the title line. -/
theorem payee_changes_pipeline_output :
    runPipeline ⟨2016, 8, 24, 0, 0⟩
      [{ id := "3", currency := "USD", amount := "5", category := "Food",
         sub_category := "Snack", date := "20210305", from_account := "Cash",
         to_account := "x", remark := "", periodic := "", project := "",
         payee := "Alice", uid := "u3", time := "930", status := "" }] ≠
    runPipeline ⟨2016, 8, 24, 0, 0⟩
      [{ id := "3", currency := "USD", amount := "5", category := "Food",
         sub_category := "Snack", date := "20210305", from_account := "Cash",
         to_account := "x", remark := "", periodic := "", project := "",
         payee := "Bob", uid := "u3", time := "930", status := "" }] := by
  decide

/-- C9 amended: the raw payee field is overwritten (hence ignored) only for
the SYSTEM and Transfer archetypes — there the classifier's successful
output is invariant under a change of payee; for every other emitted row
(Income and the Expense default) the raw payee value becomes the emitted
Transaction's payee, which the formatter renders in the title line. -/
theorem payee_scope (curr : DateTime) (r : Record) (p : String) :
    ((r.category = "SYSTEM" ∨ r.category = "Transfer") →
      ∀ o, classify curr r = .ok o →
        classify curr { r with payee := p } = .ok o) ∧
    (∀ t d, classify curr r = .ok (some t, d) →
      r.category ≠ "SYSTEM" → r.category ≠ "Transfer" →
      t.payee = r.payee) := by
  constructor
  · intro hcat o h
    unfold classify at h ⊢
    dsimp only at h ⊢
    split at h
    · exact Except.noConfusion h
    · rename_i hstat
      rw [if_neg hstat]
      split at h
      · rename_i hc
        rw [if_pos hc]
        split at h
        · exact Except.noConfusion h
        · rename_i hsub
          rw [if_neg hsub]
          split at h
          · exact Except.noConfusion h
          · rename_i m e hamt
            split at h
            · rename_i hle
              rw [if_pos hle]
              exact h
            · rename_i hle
              rw [if_neg hle]
              exact h
      · rename_i hc
        rw [if_neg hc]
        rcases hcat with hsys | htr
        · exact absurd hsys hc
        · split at h
          · rename_i ht
            rw [if_pos ht]
            exact h
          · rename_i ht
            exact absurd htr ht
  · intro t d h h1 h2
    rcases classify_emit_cases curr r t d h with
      ⟨hc, _, _⟩ | ⟨hc, _, _⟩ | ⟨_, ht, _⟩ | ⟨_, _, _, ht, _⟩
    · exact absurd hc h1
    · exact absurd hc h2
    · rw [ht]
      rfl
    · rw [ht]
      rfl

/-- C9 amended witness: a Transfer row's classification is unchanged when
its raw payee is rewritten, and an Expense row's emitted payee is the raw
payee value. -/
theorem payee_scope_witness :
    classify ⟨2016, 8, 24, 0, 0⟩
      { id := 3, currency := "TWD", amount := "50", category := "Transfer",
        sub_category := "move", from_account := "Bank", to_account := "Cash",
        remark := "", periodic := "", project := "", payee := "Eve",
        uid := "u3", time := ⟨2021, 4, 1, 8, 0⟩, status := none } =
      .ok (some { id := 3, currency := "TWD", amount := "50",
                  category := "Transfer", from_account := "Bank",
                  to_account := "Cash", remark := "", periodic := "",
                  project := "", payee := "move", uid := "u3",
                  time := ⟨2021, 4, 1, 8, 0⟩, status := none },
        ⟨2021, 4, 1, 8, 0⟩) ∧
    ({ id := 2, currency := "TWD", amount := "120", category := "Expense",
       from_account := "Cash", to_account := "Food:Lunch", remark := "",
       periodic := "", project := "", payee := "Bob", uid := "u2",
       time := ⟨2021, 3, 5, 12, 30⟩,
       status := some 1 } : Transaction).payee = "Bob" :=
  ⟨(payee_scope ⟨2016, 8, 24, 0, 0⟩
      { id := 3, currency := "TWD", amount := "50", category := "Transfer",
        sub_category := "move", from_account := "Bank", to_account := "Cash",
        remark := "", periodic := "", project := "", payee := "Alice",
        uid := "u3", time := ⟨2021, 4, 1, 8, 0⟩, status := none }
      "Eve").1 (Or.inr rfl) _ (by decide),
   (payee_scope ⟨2016, 8, 24, 0, 0⟩
      { id := 2, currency := "TWD", amount := "120", category := "Food",
        sub_category := "Lunch", from_account := "Cash", to_account := "old",
        remark := "", periodic := "", project := "", payee := "Bob",
        uid := "u2", time := ⟨2021, 3, 5, 12, 30⟩, status := some 1 }
      "x").2 _ ⟨2021, 3, 5, 12, 30⟩ (by decide) (by decide) (by decide)⟩

end AndroMoney2PTA
